import Mathlib

/-!
Shallow embedding of the `audiopus_sys` build script (`build.rs`).

The script runs once per build: it optionally regenerates the bindgen
binding, resolves the link mode (static vs dynamic) from cargo features,
environment variables and the target platform, then locates the Opus
library via pkg-config or environment variables, or builds it via CMake,
and emits cargo linker directives.

External effects (environment reads, the pkg-config probe, path
canonicalisation, the CMake build, `println!` output) are modelled as an
explicit `Event` trace; the results the outside world would return are
fields of a `World` record. Fatal `expect`/panic aborts are modelled by
the `Outcome` type.
-/

namespace BuildRs

/-- The bindgen integer kind used by the script (`IntKind::I32`). -/
inductive IntKind where
  | i32
deriving DecidableEq

/-- Embeds `str::starts_with` on strings (prefix test on the character
sequence). -/
def strStartsWith (s p : String) : Bool := p.data.isPrefixOf s.data

/-- Embeds `OpusCallbacks::int_macro`: integer macros whose name starts
with `OPUS_` are forced to `i32`; all others are left to bindgen's
default inference (`None`). -/
def int_macro (name : String) (_value : Int) : Option IntKind :=
  if strStartsWith name "OPUS_" then some IntKind.i32 else none

/-- Compile-time platform predicates, as tested by `cfg!` / `#[cfg]`. -/
structure Platform where
  windows : Bool
  macos : Bool
  target_env_musl : Bool
  target_os_freebsd : Bool
  unix : Bool
  target_env_gnu : Bool
deriving DecidableEq

/-- Cargo feature toggles consumed by the script. -/
structure Features where
  static : Bool
  dynamic : Bool
  generate_binding : Bool
deriving DecidableEq

/-- Observable actions of the build script, in execution order. -/
inductive Event where
  | readEnv (name : String)
  | bindgenGenerate
  | bindingWrite (path : String)
  | pkgProbe (statik : Bool) (found : Bool)
  | canonicalize (path : String) (result : Option String)
  | cmakeBuild (source : String) (defines : List (String × String)) (result : Option String)
  | emit (line : String)
deriving DecidableEq

/-- Termination status of a run: normal completion, or a fatal
`expect`/panic abort carrying its message. -/
inductive Outcome where
  | ok
  | fatal (msg : String)
deriving DecidableEq

/-- All inputs of one run: the process environment, the cargo features,
the target platform, and the answers the external world would give
(pkg-config probe result as a function of the `statik` flag,
canonicalisation of the vendored `opus` path, CMake build result, and
whether bindgen generation / the binding file write succeed). -/
structure World where
  env : String → Option String
  features : Features
  platform : Platform
  pkgConfigFindsOpus : Bool → Bool
  canonicalizeOpus : Option String
  cmakeBuildResult : Option String
  bindgenOk : Bool
  bindingWriteOk : Bool

/-- Embeds `rustc_linking_word`. -/
def rustc_linking_word (is_static_link : Bool) : String :=
  if is_static_link then "static" else "dylib"

/-- Embeds `link_opus`: the info line, the link directive and the
search-path directive printed for the given mode and build directory. -/
def link_opus (is_static : Bool) (opus_build_dir : String) : List Event :=
  [Event.emit ("cargo:info=Linking Opus as " ++ rustc_linking_word is_static
      ++ " lib: " ++ opus_build_dir),
   Event.emit ("cargo:rustc-link-lib=" ++ rustc_linking_word is_static ++ "=opus"),
   Event.emit ("cargo:rustc-link-search=native=" ++ opus_build_dir ++ "/lib")]

/-- The two CMake `define` overrides set by `build_opus` before building. -/
def opusCMakeDefines : List (String × String) :=
  [("OPUS_ASSERTIONS", "OFF"), ("OPUS_HARDENING", "OFF")]

/-- Embeds `build_opus`: canonicalise the vendored `opus` path (fatal on
failure), run the CMake build with the two fixed defines (fatal on
failure), then emit the link directives for the build directory. -/
def build_opus (w : World) (is_static : Bool) : List Event × Outcome :=
  match w.canonicalizeOpus with
  | none =>
    ([Event.canonicalize "opus" none],
     Outcome.fatal "Could not canonicalise to absolute path")
  | some abs =>
    let pre := [Event.canonicalize "opus" (some abs),
      Event.emit ("cargo:info=Opus source path used: \"" ++ abs ++ "\"."),
      Event.emit "cargo:info=Building Opus via CMake.",
      Event.cmakeBuild "opus" opusCMakeDefines w.cmakeBuildResult]
    match w.cmakeBuildResult with
    | none => (pre, Outcome.fatal "cmake failed to build Opus")
    | some dir => (pre ++ link_opus is_static dir, Outcome.ok)

/-- Embeds `find_via_pkg_config`: probe pkg-config for `opus` with the
requested `statik` flag; returns whether the probe succeeded. -/
def find_via_pkg_config (w : World) (is_static : Bool) : List Event × Bool :=
  ([Event.pkgProbe is_static (w.pkgConfigFindsOpus is_static)],
   w.pkgConfigFindsOpus is_static)

/-- Embeds `default_library_linking`. The function body is two `#[cfg]`
blocks: static for Windows / macOS / musl, dynamic for FreeBSD / unix
with the gnu environment. When neither (or both) blocks are compiled in,
the Rust function does not compile; that case is modelled as `none`. -/
def default_library_linking (p : Platform) : Option Bool :=
  match p.windows || p.macos || p.target_env_musl,
        p.target_os_freebsd || (p.unix && p.target_env_gnu) with
  | true, false => some true
  | false, true => some false
  | _, _ => none

/-- Embeds `find_installed_opus`: return `LIBOPUS_LIB_DIR` if set, else
`OPUS_LIB_DIR` if set, else nothing. -/
def find_installed_opus (w : World) : List Event × Option String :=
  match w.env "LIBOPUS_LIB_DIR" with
  | some lib_directory => ([Event.readEnv "LIBOPUS_LIB_DIR"], some lib_directory)
  | none =>
    match w.env "OPUS_LIB_DIR" with
    | some lib_directory =>
      ([Event.readEnv "LIBOPUS_LIB_DIR", Event.readEnv "OPUS_LIB_DIR"],
       some lib_directory)
    | none =>
      ([Event.readEnv "LIBOPUS_LIB_DIR", Event.readEnv "OPUS_LIB_DIR"], none)

/-- Embeds `is_static_build`, including the short-circuit order of the
environment reads `LIBOPUS_STATIC` then `OPUS_STATIC`. The resolved mode
is `none` exactly when control reaches `default_library_linking` on a
platform where that function does not compile. -/
def is_static_build (w : World) : List Event × Option Bool :=
  if w.features.static && w.features.dynamic then
    ([], default_library_linking w.platform)
  else if w.features.static then
    ([Event.emit "cargo:info=Static feature or environment variable found."],
     some true)
  else if (w.env "LIBOPUS_STATIC").isSome then
    ([Event.readEnv "LIBOPUS_STATIC",
      Event.emit "cargo:info=Static feature or environment variable found."],
     some true)
  else if (w.env "OPUS_STATIC").isSome then
    ([Event.readEnv "LIBOPUS_STATIC", Event.readEnv "OPUS_STATIC",
      Event.emit "cargo:info=Static feature or environment variable found."],
     some true)
  else if w.features.dynamic then
    ([Event.readEnv "LIBOPUS_STATIC", Event.readEnv "OPUS_STATIC",
      Event.emit "cargo:info=Dynamic feature enabled."],
     some false)
  else
    ([Event.readEnv "LIBOPUS_STATIC", Event.readEnv "OPUS_STATIC",
      Event.emit "cargo:info=No feature or environment variable found, linking by default."],
     default_library_linking w.platform)

/-- Embeds `generate_binding` (compiled under the `generate_binding`
feature): run bindgen (fatal on failure), write the binding to
`src/lib.rs` (fatal on failure), then report success. -/
def generate_binding (w : World) : List Event × Outcome :=
  if w.bindgenOk then
    if w.bindingWriteOk then
      ([Event.bindgenGenerate, Event.bindingWrite "src/lib.rs",
        Event.emit "cargo:info=Successfully generated binding."],
       Outcome.ok)
    else
      ([Event.bindgenGenerate, Event.bindingWrite "src/lib.rs"],
       Outcome.fatal "Could not write binding to the file at `src/lib.rs`")
  else
    ([Event.bindgenGenerate], Outcome.fatal "Unable to generate binding")

/-- The tail of `main` (lines 186-190): link an installed Opus if either
lib-dir environment variable is set, otherwise build Opus from source.
`pre` is the trace accumulated so far. -/
def resolve_installed_or_build (w : World) (is_static : Bool) (pre : List Event) :
    List Event × Outcome :=
  match find_installed_opus w with
  | (eloc, some installed_opus) =>
    (pre ++ eloc ++ link_opus is_static installed_opus, Outcome.ok)
  | (eloc, none) =>
    let built := build_opus w is_static
    (pre ++ eloc ++ built.1, built.2)

/-- Embeds `main`. Returns `none` when the target platform makes the
script fail to compile (no `default_library_linking` branch applies on a
path that needs it); otherwise the full event trace and the outcome. The
pkg-config block exists only under `#[cfg(any(unix, target_env = "gnu"))]`. -/
def main (w : World) : Option (List Event × Outcome) :=
  let gen := if w.features.generate_binding then generate_binding w
             else ([], Outcome.ok)
  match gen with
  | (egen, Outcome.fatal m) => some (egen, Outcome.fatal m)
  | (egen, Outcome.ok) =>
    match is_static_build w with
    | (_, none) => none
    | (estat, some is_static) =>
      let pre := egen ++ estat
      if w.platform.unix || w.platform.target_env_gnu then
        if (w.env "LIBOPUS_NO_PKG").isSome then
          some (resolve_installed_or_build w is_static
            (pre ++ [Event.readEnv "LIBOPUS_NO_PKG",
                     Event.emit "cargo:info=Bypassed `pkg-config`."]))
        else if (w.env "OPUS_NO_PKG").isSome then
          some (resolve_installed_or_build w is_static
            (pre ++ [Event.readEnv "LIBOPUS_NO_PKG", Event.readEnv "OPUS_NO_PKG",
                     Event.emit "cargo:info=Bypassed `pkg-config`."]))
        else
          let probed := find_via_pkg_config w is_static
          let pre2 := pre ++ [Event.readEnv "LIBOPUS_NO_PKG",
                              Event.readEnv "OPUS_NO_PKG"] ++ probed.1
          if probed.2 then
            some (pre2 ++ [Event.emit "cargo:info=Found `Opus` via `pkg_config`."],
                  Outcome.ok)
          else
            some (resolve_installed_or_build w is_static
              (pre2 ++ [Event.emit "cargo:info=`pkg_config` could not find `Opus`."]))
      else
        some (resolve_installed_or_build w is_static pre)

/-- A generic POSIX-with-glibc target (e.g. x86_64-unknown-linux-gnu). -/
def glibcPlatform : Platform :=
  { windows := false, macos := false, target_env_musl := false,
    target_os_freebsd := false, unix := true, target_env_gnu := true }

/-- A Windows MSVC target. -/
def windowsPlatform : Platform :=
  { windows := true, macos := false, target_env_musl := false,
    target_os_freebsd := false, unix := false, target_env_gnu := false }

/-- An empty environment: no variable is set. -/
def emptyEnv : String → Option String := fun _ => none

/-- An environment holding exactly one variable. -/
def oneVarEnv (name value : String) : String → Option String :=
  fun s => if s = name then some value else none

/-- An environment with both lib-dir variables set to distinct values. -/
def bothLibDirsEnv : String → Option String :=
  fun s => if s = "LIBOPUS_LIB_DIR" then some "/current"
           else if s = "OPUS_LIB_DIR" then some "/legacy" else none

/-- No cargo feature enabled. -/
def noFeatures : Features := ⟨false, false, false⟩

/-- A reference world: empty environment, no features, glibc target,
pkg-config never finds Opus, canonicalisation and the CMake build both
succeed, bindgen would succeed. -/
def baseWorld : World :=
  { env := emptyEnv, features := noFeatures, platform := glibcPlatform,
    pkgConfigFindsOpus := fun _ => false, canonicalizeOpus := some "/abs/opus",
    cmakeBuildResult := some "/out/opus", bindgenOk := true, bindingWriteOk := true }

/-- The C2 scenario: empty environment, no features, glibc target, with
the probe answer and the two build-step results left as parameters. -/
def posixWorld (probe : Bool → Bool) (canon cm : Option String) : World :=
  { env := emptyEnv, features := noFeatures, platform := glibcPlatform,
    pkgConfigFindsOpus := probe, canonicalizeOpus := canon,
    cmakeBuildResult := cm, bindgenOk := true, bindingWriteOk := true }

/-- Helper: when binding generation is disabled or would succeed, the
generation step of `main` completes normally and its trace holds only
bindgen events and info lines. -/
theorem gen_step_ok (w : World)
    (hgen : w.features.generate_binding = false ∨
      (w.bindgenOk = true ∧ w.bindingWriteOk = true)) :
    ∃ egen, (if w.features.generate_binding then generate_binding w
      else ([], Outcome.ok)) = (egen, Outcome.ok) ∧
      ∀ e ∈ egen, e = Event.bindgenGenerate ∨ e = Event.bindingWrite "src/lib.rs" ∨
        ∃ s, e = Event.emit s := by
  cases hg : w.features.generate_binding with
  | false => exact ⟨[], by simp, by simp⟩
  | true =>
    rcases hgen with h | ⟨h1, h2⟩
    · rw [hg] at h; cases h
    · refine ⟨(generate_binding w).1, ?_, ?_⟩
      · simp [generate_binding, h1, h2]
      · intro e he
        simp [generate_binding, h1, h2] at he
        rcases he with h | h | h <;> simp [h]

/-- Helper: the resolver's trace holds only the two force-static
environment reads and info lines. -/
theorem is_static_build_trace_shape (w : World) (e : Event)
    (he : e ∈ (is_static_build w).1) :
    e = Event.readEnv "LIBOPUS_STATIC" ∨ e = Event.readEnv "OPUS_STATIC" ∨
    ∃ s, e = Event.emit s := by
  cases hs : w.features.static <;> cases hd : w.features.dynamic <;>
    cases h1 : (w.env "LIBOPUS_STATIC").isSome <;>
    cases h2 : (w.env "OPUS_STATIC").isSome <;>
    simp_all [is_static_build] <;> aesop

/-- Helper: the locator's trace holds only the two lib-dir environment
reads. -/
theorem find_installed_opus_trace_shape (w : World) (e : Event)
    (he : e ∈ (find_installed_opus w).1) :
    e = Event.readEnv "LIBOPUS_LIB_DIR" ∨ e = Event.readEnv "OPUS_LIB_DIR" := by
  cases h1 : w.env "LIBOPUS_LIB_DIR" <;> cases h2 : w.env "OPUS_LIB_DIR" <;>
    simp_all [find_installed_opus]

/-- Helper: the locator always reads LIBOPUS_LIB_DIR first. -/
theorem find_installed_opus_reads_lib_dir (w : World) :
    Event.readEnv "LIBOPUS_LIB_DIR" ∈ (find_installed_opus w).1 := by
  cases h1 : w.env "LIBOPUS_LIB_DIR" <;> cases h2 : w.env "OPUS_LIB_DIR" <;>
    simp [find_installed_opus, h1, h2]

/-- Helper: the emitter's trace is info lines and directives only. -/
theorem link_opus_trace_shape (b : Bool) (dir : String) (e : Event)
    (he : e ∈ link_opus b dir) : ∃ s, e = Event.emit s := by
  simp [link_opus] at he
  rcases he with h | h | h <;> exact ⟨_, h⟩

/-- Helper: the native build's trace holds only the canonicalisation,
the CMake invocation and info lines. -/
theorem build_opus_trace_shape (w : World) (b : Bool) (e : Event)
    (he : e ∈ (build_opus w b).1) :
    (∃ p r, e = Event.canonicalize p r) ∨
    (∃ src d r, e = Event.cmakeBuild src d r) ∨ ∃ s, e = Event.emit s := by
  cases hc : w.canonicalizeOpus <;> cases hr : w.cmakeBuildResult <;>
    simp_all [build_opus, link_opus] <;> aesop

/-- Helper: the native build always canonicalises the vendored source
path first. -/
theorem build_opus_canonicalize_mem (w : World) (b : Bool) :
    Event.canonicalize "opus" w.canonicalizeOpus ∈ (build_opus w b).1 := by
  cases hc : w.canonicalizeOpus <;> cases hr : w.cmakeBuildResult <;>
    simp [build_opus, hc, hr]

/-- Helper: with both lib-dir variables absent, the tail of `main`
reads them and then runs the native build. -/
theorem resolve_eq_build_of_no_lib_dirs (w : World) (b : Bool) (pre : List Event)
    (h1 : w.env "LIBOPUS_LIB_DIR" = none) (h2 : w.env "OPUS_LIB_DIR" = none) :
    resolve_installed_or_build w b pre =
      (pre ++ [Event.readEnv "LIBOPUS_LIB_DIR", Event.readEnv "OPUS_LIB_DIR"]
        ++ (build_opus w b).1, (build_opus w b).2) := by
  simp [resolve_installed_or_build, find_installed_opus, h1, h2]

/-- Helper: every event of the locator-or-build tail is either from the
accumulated prefix, a lib-dir read, or an event of the build or the
emitter. -/
theorem resolve_trace_shape (w : World) (b : Bool) (pre : List Event) (e : Event)
    (he : e ∈ (resolve_installed_or_build w b pre).1) :
    e ∈ pre ∨ e = Event.readEnv "LIBOPUS_LIB_DIR" ∨ e = Event.readEnv "OPUS_LIB_DIR" ∨
    (∃ p r, e = Event.canonicalize p r) ∨
    (∃ src d r, e = Event.cmakeBuild src d r) ∨ ∃ s, e = Event.emit s := by
  rcases hf : find_installed_opus w with ⟨eloc, res⟩
  have hloc : ∀ x ∈ eloc, x = Event.readEnv "LIBOPUS_LIB_DIR" ∨
      x = Event.readEnv "OPUS_LIB_DIR" := by
    intro x hx
    exact find_installed_opus_trace_shape w x (by rw [hf]; exact hx)
  cases res with
  | some dir =>
    rw [show (resolve_installed_or_build w b pre).1 = pre ++ eloc ++ link_opus b dir
      from by simp [resolve_installed_or_build, hf]] at he
    simp only [List.mem_append] at he
    rcases he with (h | h) | h
    · exact Or.inl h
    · rcases hloc e h with h | h <;> simp [h]
    · rcases link_opus_trace_shape b dir e h with ⟨s, hs⟩
      exact Or.inr (Or.inr (Or.inr (Or.inr (Or.inr ⟨s, hs⟩))))
  | none =>
    rw [show (resolve_installed_or_build w b pre).1 = pre ++ eloc ++ (build_opus w b).1
      from by simp [resolve_installed_or_build, hf]] at he
    simp only [List.mem_append] at he
    rcases he with (h | h) | h
    · exact Or.inl h
    · rcases hloc e h with h | h <;> simp [h]
    · rcases build_opus_trace_shape w b e h with h | h | h <;> simp [h]

/-- Helper: the locator-or-build tail always reads LIBOPUS_LIB_DIR. -/
theorem resolve_mem_lib_dir_read (w : World) (b : Bool) (pre : List Event) :
    Event.readEnv "LIBOPUS_LIB_DIR" ∈ (resolve_installed_or_build w b pre).1 := by
  rcases hf : find_installed_opus w with ⟨eloc, res⟩
  have hin : Event.readEnv "LIBOPUS_LIB_DIR" ∈ eloc := by
    have h := find_installed_opus_reads_lib_dir w
    rw [hf] at h
    exact h
  cases res <;> simp [resolve_installed_or_build, hf, hin]

/-- Helper: with no bypass variable set, `main` on a POSIX-like target
runs the pkg-config probe right after the resolver and either stops on
success or falls through to the locator-or-build tail. -/
theorem main_eq_no_bypass (w : World) (egen estat : List Event) (b : Bool)
    (hgen : (if w.features.generate_binding then generate_binding w
      else ([], Outcome.ok)) = (egen, Outcome.ok))
    (hsb : is_static_build w = (estat, some b))
    (hposix : (w.platform.unix || w.platform.target_env_gnu) = true)
    (h1 : w.env "LIBOPUS_NO_PKG" = none) (h2 : w.env "OPUS_NO_PKG" = none) :
    main w = some (
      if w.pkgConfigFindsOpus b then
        (egen ++ estat ++ [Event.readEnv "LIBOPUS_NO_PKG", Event.readEnv "OPUS_NO_PKG",
          Event.pkgProbe b true, Event.emit "cargo:info=Found `Opus` via `pkg_config`."],
         Outcome.ok)
      else
        resolve_installed_or_build w b (egen ++ estat
          ++ [Event.readEnv "LIBOPUS_NO_PKG", Event.readEnv "OPUS_NO_PKG",
              Event.pkgProbe b false,
              Event.emit "cargo:info=`pkg_config` could not find `Opus`."])) := by
  cases hpf : w.pkgConfigFindsOpus b <;>
    simp [main, hgen, hsb, hposix, h1, h2, find_via_pkg_config, hpf]

/-- Helper: with a bypass variable set, `main` on a POSIX-like target
never probes pkg-config and goes straight to the locator-or-build tail. -/
theorem main_eq_bypass (w : World) (egen estat : List Event) (b : Bool)
    (hgen : (if w.features.generate_binding then generate_binding w
      else ([], Outcome.ok)) = (egen, Outcome.ok))
    (hsb : is_static_build w = (estat, some b))
    (hposix : (w.platform.unix || w.platform.target_env_gnu) = true)
    (hb : ((w.env "LIBOPUS_NO_PKG").isSome || (w.env "OPUS_NO_PKG").isSome) = true) :
    ∃ byreads, (byreads = [Event.readEnv "LIBOPUS_NO_PKG"] ∨
      byreads = [Event.readEnv "LIBOPUS_NO_PKG", Event.readEnv "OPUS_NO_PKG"]) ∧
    main w = some (resolve_installed_or_build w b (egen ++ estat ++ byreads
      ++ [Event.emit "cargo:info=Bypassed `pkg-config`."])) := by
  cases hb1 : (w.env "LIBOPUS_NO_PKG").isSome with
  | true =>
    refine ⟨[Event.readEnv "LIBOPUS_NO_PKG"], Or.inl rfl, ?_⟩
    simp [main, hgen, hsb, hposix, hb1]
  | false =>
    rw [hb1] at hb
    simp only [Bool.false_or] at hb
    refine ⟨[Event.readEnv "LIBOPUS_NO_PKG", Event.readEnv "OPUS_NO_PKG"], Or.inr rfl, ?_⟩
    simp [main, hgen, hsb, hposix, hb1, hb]

/-- C5: the linking word is a pure function of the resolved link mode —
static maps to "static" and dynamic maps to "dylib" — and the link
directive emitted by `link_opus` uses exactly that word on every
invocation. -/
theorem c5_linking_word_pure (b : Bool) (dir : String) :
    rustc_linking_word true = "static" ∧ rustc_linking_word false = "dylib" ∧
    (link_opus b dir).get? 1 =
      some (Event.emit ("cargo:rustc-link-lib=" ++ rustc_linking_word b ++ "=opus")) :=
  ⟨rfl, rfl, rfl⟩

/-- C4 (counterexample): for the base directory "x/", which ends in a
separator, the emitted search-path directive is
"cargo:rustc-link-search=native=x//lib" — it contains a doubled
separator and is not the directive naming the subdirectory "x/lib". -/
theorem c4_counterexample_trailing_separator :
    (link_opus true "x/").get? 2 =
      some (Event.emit "cargo:rustc-link-search=native=x//lib") ∧
    ("cargo:rustc-link-search=native=x//lib" : String) ≠
      "cargo:rustc-link-search=native=x/lib" :=
  ⟨rfl, by decide⟩

/-- C4 (amended): for every base directory string, the emitted
search-path directive is literally the base directory with "/lib"
appended; trailing separators in the input are not stripped, so an input
ending in "/" yields a doubled separator. -/
theorem c4_search_path_appends_lib (b : Bool) (dir : String) :
    (link_opus b dir).get? 2 =
      some (Event.emit ("cargo:rustc-link-search=native=" ++ dir ++ "/lib")) :=
  rfl

/-- C7: every integer macro whose name begins with "OPUS_" is forced to
the 32-bit signed kind regardless of its value, macros without the
prefix are left to default inference, and in particular
OPUS_APPLICATION_AUDIO with an out-of-32-bit-range value is still i32. -/
theorem c7_opus_macros_forced_i32 :
    (∀ name v, strStartsWith name "OPUS_" = true → int_macro name v = some IntKind.i32) ∧
    (∀ name v, strStartsWith name "OPUS_" = false → int_macro name v = none) ∧
    (2 ^ 31 ≤ (5000000000 : Int) ∧
      int_macro "OPUS_APPLICATION_AUDIO" 5000000000 = some IntKind.i32) := by
  refine ⟨fun name v h => ?_, fun name v h => ?_, by norm_num, by decide⟩
  · simp [ int_macro, h]
  · simp [ int_macro, h]

/-- Witness for C7 at concrete inputs. -/
theorem c7_witness :
    int_macro "OPUS_APPLICATION_AUDIO" 5000000000 = some IntKind.i32 ∧
    int_macro "CLOCKS_PER_SEC" 1000000 = none :=
  ⟨c7_opus_macros_forced_i32.1 "OPUS_APPLICATION_AUDIO" 5000000000 (by decide),
   c7_opus_macros_forced_i32.2.1 "CLOCKS_PER_SEC" 1000000 (by decide)⟩

/-- C6: the platform-default link mode is static on Windows, macOS or a
musl environment, and dynamic on FreeBSD or unix with the gnu (glibc)
environment. -/
theorem c6_platform_default (p : Platform) :
    ((p.windows || p.macos || p.target_env_musl) = true →
      (p.target_os_freebsd || (p.unix && p.target_env_gnu)) = false →
      default_library_linking p = some true) ∧
    ((p.windows || p.macos || p.target_env_musl) = false →
      (p.target_os_freebsd || (p.unix && p.target_env_gnu)) = true →
      default_library_linking p = some false) := by
  constructor <;> intro h1 h2 <;> simp [default_library_linking, h1, h2]

/-- Witness for C6: a Windows target defaults to static, a glibc target
to dynamic. -/
theorem c6_witness :
    default_library_linking windowsPlatform = some true ∧
    default_library_linking glibcPlatform = some false :=
  ⟨(c6_platform_default windowsPlatform).1 (by decide) (by decide),
   (c6_platform_default glibcPlatform).2 (by decide) (by decide)⟩

/-- C3: the installed-library locator returns the value of
LIBOPUS_LIB_DIR whenever that variable is set (in particular when both
are set), and otherwise returns exactly the value of OPUS_LIB_DIR. -/
theorem c3_locator_priority (w : World) :
    (∀ d, w.env "LIBOPUS_LIB_DIR" = some d → (find_installed_opus w).2 = some d) ∧
    (w.env "LIBOPUS_LIB_DIR" = none →
      (find_installed_opus w).2 = w.env "OPUS_LIB_DIR") := by
  constructor
  · intro d h
    simp [find_installed_opus, h]
  · intro h
    cases h2 : w.env "OPUS_LIB_DIR" <;> simp [find_installed_opus, h, h2]

/-- Witness for C3: with both variables set, the locator returns the
current-named one. -/
theorem c3_witness :
    (find_installed_opus { baseWorld with env := bothLibDirsEnv }).2 = some "/current" :=
  (c3_locator_priority _).1 "/current" (by decide)

/-- C9: whenever the native build runs, every CMake invocation in its
trace uses the vendored `opus` source and exactly the two fixed defines
(assertions and hardening off), and on success the build directory and
the resolved link mode are handed to the linker-directive emitter. -/
theorem c9_build_configures_and_links (w : World) (b : Bool) :
    (∀ src d r, Event.cmakeBuild src d r ∈ (build_opus w b).1 →
      src = "opus" ∧ d = opusCMakeDefines ∧ r = w.cmakeBuildResult) ∧
    (∀ abs dir, w.canonicalizeOpus = some abs → w.cmakeBuildResult = some dir →
      ∃ pre, build_opus w b = (pre ++ link_opus b dir, Outcome.ok) ∧
        Event.cmakeBuild "opus" opusCMakeDefines (some dir) ∈ pre) := by
  constructor
  · intro src d r hmem
    rw [show (r = w.cmakeBuildResult) = (w.cmakeBuildResult = r) from propext eq_comm]
    cases hc : w.canonicalizeOpus with
    | none => simp [build_opus, hc] at hmem
    | some abs =>
      cases hr : w.cmakeBuildResult with
      | none =>
        simp [build_opus, hc, hr, link_opus] at hmem
        exact ⟨hmem.1, hmem.2.1, hmem.2.2.symm⟩
      | some dir =>
        simp [build_opus, hc, hr, link_opus] at hmem
        exact ⟨hmem.1, hmem.2.1, hmem.2.2.symm⟩
  · intro abs dir hc hr
    refine ⟨[Event.canonicalize "opus" (some abs),
      Event.emit ("cargo:info=Opus source path used: \"" ++ abs ++ "\"."),
      Event.emit "cargo:info=Building Opus via CMake.",
      Event.cmakeBuild "opus" opusCMakeDefines (some dir)], ?_, by simp⟩
    simp [build_opus, hc, hr]

/-- Witness for C9 at the reference world. -/
theorem c9_witness :
    ∃ pre, build_opus baseWorld true = (pre ++ link_opus true "/out/opus", Outcome.ok) ∧
      Event.cmakeBuild "opus" opusCMakeDefines (some "/out/opus") ∈ pre :=
  (c9_build_configures_and_links baseWorld true).2 "/abs/opus" "/out/opus" rfl rfl

/-- C1: the link-mode resolver follows the priority order — both toggles
set falls through to the platform default; else the static toggle or
either force-static variable gives static; else the dynamic toggle gives
dynamic; else the platform default applies — and in particular
OPUS_STATIC set with only the dynamic feature enabled resolves to
static. -/
theorem c1_link_mode_priority (w : World) :
    (w.features.static = true → w.features.dynamic = true →
      (is_static_build w).2 = default_library_linking w.platform) ∧
    (¬(w.features.static = true ∧ w.features.dynamic = true) →
      (w.features.static = true ∨ (w.env "LIBOPUS_STATIC").isSome = true ∨
        (w.env "OPUS_STATIC").isSome = true) →
      (is_static_build w).2 = some true) ∧
    (w.features.static = false → w.env "LIBOPUS_STATIC" = none →
      w.env "OPUS_STATIC" = none → w.features.dynamic = true →
      (is_static_build w).2 = some false) ∧
    (w.features.static = false → w.features.dynamic = false →
      w.env "LIBOPUS_STATIC" = none → w.env "OPUS_STATIC" = none →
      (is_static_build w).2 = default_library_linking w.platform) ∧
    ((w.env "OPUS_STATIC").isSome = true → w.features.static = false →
      w.features.dynamic = true → (is_static_build w).2 = some true) := by
  refine ⟨?_, ?_, ?_, ?_, ?_⟩
  · intro hs hd
    simp [is_static_build, hs, hd]
  · intro hboth hor
    cases hs : w.features.static with
    | true =>
      cases hd : w.features.dynamic with
      | true => exact absurd ⟨hs, hd⟩ hboth
      | false => simp [is_static_build, hs, hd]
    | false =>
      rcases hor with h | h | h
      · rw [hs] at h; cases h
      · simp [is_static_build, hs, h]
      · cases h1 : (w.env "LIBOPUS_STATIC").isSome <;>
          simp [is_static_build, hs, h, h1]
  · intro hs h1 h2 hd
    simp [is_static_build, hs, h1, h2, hd]
  · intro hs hd h1 h2
    simp [is_static_build, hs, hd, h1, h2]
  · intro h2 hs hd
    cases h1 : (w.env "LIBOPUS_STATIC").isSome <;>
      simp [is_static_build, hs, hd, h1, h2]

/-- C8: every resolution failure — canonicalisation, CMake build,
bindgen generation, binding write — is immediately fatal with a
descriptive message and no output past the failure point, and a fatal
binding-generation failure aborts `main` before anything else runs;
absent lib-dir variables and a failed pkg-config probe are not errors
and fall through to the next strategy. -/
theorem c8_failures_fatal_not_found_falls_through (w : World) (b : Bool) :
    (w.canonicalizeOpus = none →
      build_opus w b = ([Event.canonicalize "opus" none],
        Outcome.fatal "Could not canonicalise to absolute path")) ∧
    (∀ abs, w.canonicalizeOpus = some abs → w.cmakeBuildResult = none →
      (build_opus w b).2 = Outcome.fatal "cmake failed to build Opus") ∧
    (w.bindgenOk = false →
      generate_binding w =
        ([Event.bindgenGenerate], Outcome.fatal "Unable to generate binding")) ∧
    (w.bindgenOk = true → w.bindingWriteOk = false →
      generate_binding w = ([Event.bindgenGenerate, Event.bindingWrite "src/lib.rs"],
        Outcome.fatal "Could not write binding to the file at `src/lib.rs`")) ∧
    (w.features.generate_binding = true →
      ∀ m, (generate_binding w).2 = Outcome.fatal m →
      main w = some ((generate_binding w).1, Outcome.fatal m)) ∧
    (w.env "LIBOPUS_LIB_DIR" = none → w.env "OPUS_LIB_DIR" = none → ∀ pre,
      resolve_installed_or_build w b pre =
        (pre ++ [Event.readEnv "LIBOPUS_LIB_DIR", Event.readEnv "OPUS_LIB_DIR"]
          ++ (build_opus w b).1, (build_opus w b).2)) ∧
    (w.features.generate_binding = false →
      (is_static_build w).2 = some b →
      (w.platform.unix || w.platform.target_env_gnu) = true →
      w.env "LIBOPUS_NO_PKG" = none → w.env "OPUS_NO_PKG" = none →
      w.pkgConfigFindsOpus b = false →
      main w = some (resolve_installed_or_build w b
        ((is_static_build w).1 ++ [Event.readEnv "LIBOPUS_NO_PKG",
          Event.readEnv "OPUS_NO_PKG", Event.pkgProbe b false,
          Event.emit "cargo:info=`pkg_config` could not find `Opus`."]))) := by
  refine ⟨?_, ?_, ?_, ?_, ?_, ?_, ?_⟩
  · intro hc
    simp [build_opus, hc]
  · intro abs hc hr
    simp [build_opus, hc, hr]
  · intro hb
    simp [generate_binding, hb]
  · intro hb hw
    simp [generate_binding, hb, hw]
  · intro hg m hm
    rcases hga : generate_binding w with ⟨eg, og⟩
    rw [hga] at hm
    simp only at hm
    subst hm
    simp [main, hg, hga]
  · intro h1 h2 pre
    simp [resolve_installed_or_build, find_installed_opus, h1, h2]
  · intro hg hsb hposix h1 h2 hp
    rcases hsa : is_static_build w with ⟨estat, sv⟩
    rw [hsa] at hsb
    simp only at hsb
    subst hsb
    simp [main, hg, hsa, hposix, h1, h2, find_via_pkg_config, hp]

/-- Witness for C8: a missing vendored source path is fatal with the
canonicalisation message, a bindgen failure is fatal with its message,
and absent lib-dir variables fall through to the native build. -/
theorem c8_witness :
    build_opus { baseWorld with canonicalizeOpus := none } true =
      ([Event.canonicalize "opus" none],
       Outcome.fatal "Could not canonicalise to absolute path") ∧
    generate_binding { baseWorld with bindgenOk := false } =
      ([Event.bindgenGenerate], Outcome.fatal "Unable to generate binding") ∧
    resolve_installed_or_build baseWorld false [] =
      ([Event.readEnv "LIBOPUS_LIB_DIR", Event.readEnv "OPUS_LIB_DIR"]
        ++ (build_opus baseWorld false).1, (build_opus baseWorld false).2) := by
  refine ⟨(c8_failures_fatal_not_found_falls_through _ true).1 rfl,
    (c8_failures_fatal_not_found_falls_through _ false).2.2.1 rfl, ?_⟩
  have h := (c8_failures_fatal_not_found_falls_through baseWorld false).2.2.2.2.2.1
    rfl rfl []
  simpa using h

/-- Witness for C1: OPUS_STATIC set together with only the dynamic
feature resolves to static. -/
theorem c1_witness :
    (is_static_build { baseWorld with
        env := oneVarEnv "OPUS_STATIC" "1",
        features := ⟨false, true, false⟩ }).2 = some true :=
  (c1_link_mode_priority _).2.2.2.2 (by decide) (by decide) (by decide)

/-- C2: with no environment variables set, no features enabled, on a
generic POSIX-glibc target, the mode resolves to dynamic, the pkg-config
probe is attempted before any native-build step, and the native build is
invoked exactly when the probe fails. -/
theorem c2_end_to_end_posix_glibc (probe : Bool → Bool) (canon cm : Option String) :
    (is_static_build (posixWorld probe canon cm)).2 = some false ∧
    ∃ t o, main (posixWorld probe canon cm) = some (t, o) ∧
      (∃ t1 t2, t = t1 ++ Event.pkgProbe false (probe false) :: t2 ∧
        (∀ p r, Event.canonicalize p r ∉ t1) ∧
        (∀ src d r, Event.cmakeBuild src d r ∉ t1)) ∧
      (probe false = true → o = Outcome.ok ∧
        (∀ p r, Event.canonicalize p r ∉ t) ∧
        (∀ src d r, Event.cmakeBuild src d r ∉ t)) ∧
      (probe false = false → Event.canonicalize "opus" canon ∈ t) := by
  refine ⟨rfl, ?_⟩
  have hsb : is_static_build (posixWorld probe canon cm) =
      ([Event.readEnv "LIBOPUS_STATIC", Event.readEnv "OPUS_STATIC",
        Event.emit "cargo:info=No feature or environment variable found, linking by default."],
       some false) := rfl
  have hgeq : (if (posixWorld probe canon cm).features.generate_binding then
      generate_binding (posixWorld probe canon cm) else ([], Outcome.ok)) =
      ([], Outcome.ok) := rfl
  have hm := main_eq_no_bypass (posixWorld probe canon cm) [] _ false hgeq hsb rfl rfl rfl
  have hpf : (posixWorld probe canon cm).pkgConfigFindsOpus false = probe false := rfl
  rw [hpf] at hm
  cases hp : probe false with
  | true =>
    rw [hp] at hm
    simp only [if_true] at hm
    refine ⟨_, _, hm, ?_, ?_, ?_⟩
    · refine ⟨[Event.readEnv "LIBOPUS_STATIC", Event.readEnv "OPUS_STATIC",
        Event.emit "cargo:info=No feature or environment variable found, linking by default.",
        Event.readEnv "LIBOPUS_NO_PKG", Event.readEnv "OPUS_NO_PKG"],
        [Event.emit "cargo:info=Found `Opus` via `pkg_config`."], by simp, ?_, ?_⟩
      · intro p r hmem
        simp at hmem
      · intro src d r hmem
        simp at hmem
    · intro _
      refine ⟨rfl, ?_, ?_⟩
      · intro p r hmem
        simp at hmem
      · intro src d r hmem
        simp at hmem
    · intro hcon
      simp at hcon
  | false =>
    rw [hp] at hm
    simp only [Bool.false_eq_true, if_false] at hm
    rw [resolve_eq_build_of_no_lib_dirs _ false _ rfl rfl] at hm
    refine ⟨_, _, hm, ?_, ?_, ?_⟩
    · refine ⟨[Event.readEnv "LIBOPUS_STATIC", Event.readEnv "OPUS_STATIC",
        Event.emit "cargo:info=No feature or environment variable found, linking by default.",
        Event.readEnv "LIBOPUS_NO_PKG", Event.readEnv "OPUS_NO_PKG"],
        [Event.emit "cargo:info=`pkg_config` could not find `Opus`.",
         Event.readEnv "LIBOPUS_LIB_DIR", Event.readEnv "OPUS_LIB_DIR"]
          ++ (build_opus (posixWorld probe canon cm) false).1, by simp, ?_, ?_⟩
      · intro p r hmem
        simp at hmem
      · intro src d r hmem
        simp at hmem
    · intro hcon
      simp at hcon
    · intro _
      have hcanon : Event.canonicalize "opus" canon ∈
          (build_opus (posixWorld probe canon cm) false).1 :=
        build_opus_canonicalize_mem (posixWorld probe canon cm) false
      simp only [List.mem_append, List.mem_cons]
      tauto

/-- Witness for C2: with the probe succeeding, `main` completes with the
ok outcome. -/
theorem c2_witness :
    ∃ t o, main (posixWorld (fun _ => true) (some "/abs/opus") (some "/out/opus")) =
      some (t, o) ∧ o = Outcome.ok := by
  obtain ⟨h1, t, o, hm, hdec, hyes, hno⟩ :=
    c2_end_to_end_posix_glibc (fun _ => true) (some "/abs/opus") (some "/out/opus")
  exact ⟨t, o, hm, (hyes rfl).1⟩

/-- C10: on a POSIX-like target (with the binding-generation step absent
or succeeding), when neither bypass variable is set and the trace shows
a successful probe, `main` stopped right there: the lib-dir variables
were never read, no native-build step ran, and the outcome is ok; when a
bypass variable is set, no probe is ever performed and the run proceeds
to the locator-or-build chain, reading LIBOPUS_LIB_DIR. -/
theorem c10_probe_short_circuit_and_bypass (w : World) (t : List Event) (o : Outcome)
    (hposix : (w.platform.unix || w.platform.target_env_gnu) = true)
    (hgen : w.features.generate_binding = false ∨
      (w.bindgenOk = true ∧ w.bindingWriteOk = true))
    (hmain : main w = some (t, o)) :
    (w.env "LIBOPUS_NO_PKG" = none → w.env "OPUS_NO_PKG" = none →
      ∀ s f, Event.pkgProbe s f ∈ t → f = true →
        Event.readEnv "LIBOPUS_LIB_DIR" ∉ t ∧ Event.readEnv "OPUS_LIB_DIR" ∉ t ∧
        (∀ p r, Event.canonicalize p r ∉ t) ∧
        (∀ src d r, Event.cmakeBuild src d r ∉ t) ∧ o = Outcome.ok) ∧
    (((w.env "LIBOPUS_NO_PKG").isSome || (w.env "OPUS_NO_PKG").isSome) = true →
      (∀ s f, Event.pkgProbe s f ∉ t) ∧ Event.readEnv "LIBOPUS_LIB_DIR" ∈ t) := by
  obtain ⟨egen, hgeq, hegen⟩ := gen_step_ok w hgen
  rcases hsa : is_static_build w with ⟨estat, sv⟩
  have hestat : ∀ e ∈ estat, e = Event.readEnv "LIBOPUS_STATIC" ∨
      e = Event.readEnv "OPUS_STATIC" ∨ ∃ s, e = Event.emit s := by
    intro e he2
    exact is_static_build_trace_shape w e (by rw [hsa]; exact he2)
  cases sv with
  | none =>
    rw [show main w = none from by simp [main, hgeq, hsa]] at hmain
    cases hmain
  | some b =>
    constructor
    · intro h1 h2 s f hpmem hf
      have hm := main_eq_no_bypass w egen estat b hgeq hsa hposix h1 h2
      rw [hmain] at hm
      cases hpf : w.pkgConfigFindsOpus b with
      | true =>
        rw [hpf] at hm
        simp only [if_true, Option.some.injEq, Prod.mk.injEq] at hm
        obtain ⟨ht, ho⟩ := hm
        subst ht
        refine ⟨?_, ?_, ?_, ?_, ho⟩
        · intro hmem
          rcases List.mem_append.mp hmem with h | h
          · rcases List.mem_append.mp h with h | h
            · rcases hegen _ h with h' | h' | ⟨s2, h'⟩ <;> simp at h'
            · rcases hestat _ h with h' | h' | ⟨s2, h'⟩ <;> simp at h'
          · simp at h
        · intro hmem
          rcases List.mem_append.mp hmem with h | h
          · rcases List.mem_append.mp h with h | h
            · rcases hegen _ h with h' | h' | ⟨s2, h'⟩ <;> simp at h'
            · rcases hestat _ h with h' | h' | ⟨s2, h'⟩ <;> simp at h'
          · simp at h
        · intro p r hmem
          rcases List.mem_append.mp hmem with h | h
          · rcases List.mem_append.mp h with h | h
            · rcases hegen _ h with h' | h' | ⟨s2, h'⟩ <;> simp at h'
            · rcases hestat _ h with h' | h' | ⟨s2, h'⟩ <;> simp at h'
          · simp at h
        · intro src d r hmem
          rcases List.mem_append.mp hmem with h | h
          · rcases List.mem_append.mp h with h | h
            · rcases hegen _ h with h' | h' | ⟨s2, h'⟩ <;> simp at h'
            · rcases hestat _ h with h' | h' | ⟨s2, h'⟩ <;> simp at h'
          · simp at h
      | false =>
        rw [hpf] at hm
        simp only [Bool.false_eq_true, if_false, Option.some.injEq] at hm
        have ht : t = (resolve_installed_or_build w b (egen ++ estat
            ++ [Event.readEnv "LIBOPUS_NO_PKG", Event.readEnv "OPUS_NO_PKG",
                Event.pkgProbe b false,
                Event.emit "cargo:info=`pkg_config` could not find `Opus`."])).1 := by
          rw [← hm]
        rw [ht] at hpmem
        rcases resolve_trace_shape _ _ _ _ hpmem with h | h | h | h | h | h
        · rcases List.mem_append.mp h with h | h
          · rcases List.mem_append.mp h with h | h
            · rcases hegen _ h with h' | h' | ⟨s2, h'⟩ <;> simp at h'
            · rcases hestat _ h with h' | h' | ⟨s2, h'⟩ <;> simp at h'
          · simp at h
            obtain ⟨-, hfalse⟩ := h
            rw [hf] at hfalse
            cases hfalse
        · simp at h
        · simp at h
        · obtain ⟨p, r, h⟩ := h
          simp at h
        · obtain ⟨src, d, r, h⟩ := h
          simp at h
        · obtain ⟨s2, h⟩ := h
          simp at h
    · intro hb
      obtain ⟨byreads, hby, hm⟩ := main_eq_bypass w egen estat b hgeq hsa hposix hb
      rw [hmain] at hm
      simp only [Option.some.injEq] at hm
      have ht : t = (resolve_installed_or_build w b (egen ++ estat ++ byreads
          ++ [Event.emit "cargo:info=Bypassed `pkg-config`."])).1 := by
        rw [← hm]
      constructor
      · intro s f hpmem
        rw [ht] at hpmem
        rcases resolve_trace_shape _ _ _ _ hpmem with h | h | h | h | h | h
        · rcases List.mem_append.mp h with h | h
          · rcases List.mem_append.mp h with h | h
            · rcases List.mem_append.mp h with h | h
              · rcases hegen _ h with h' | h' | ⟨s2, h'⟩ <;> simp at h'
              · rcases hestat _ h with h' | h' | ⟨s2, h'⟩ <;> simp at h'
            · rcases hby with hby | hby <;> rw [hby] at h <;> simp at h
          · simp at h
        · simp at h
        · simp at h
        · obtain ⟨p, r, h⟩ := h
          simp at h
        · obtain ⟨src, d, r, h⟩ := h
          simp at h
        · obtain ⟨s2, h⟩ := h
          simp at h
      · rw [ht]
        exact resolve_mem_lib_dir_read w b _

/-- Witness for C10: with LIBOPUS_NO_PKG set, the run never probes and
reads LIBOPUS_LIB_DIR. -/
theorem c10_witness :
    ∃ t o, main { baseWorld with env := oneVarEnv "LIBOPUS_NO_PKG" "1" } = some (t, o) ∧
      (∀ s f, Event.pkgProbe s f ∉ t) ∧ Event.readEnv "LIBOPUS_LIB_DIR" ∈ t := by
  rcases hm : main { baseWorld with env := oneVarEnv "LIBOPUS_NO_PKG" "1" } with _ | ⟨t, o⟩
  · exact absurd hm (by decide)
  · have h := (c10_probe_short_circuit_and_bypass
      { baseWorld with env := oneVarEnv "LIBOPUS_NO_PKG" "1" } t o (by decide)
      (Or.inl rfl) hm).2 (by decide)
    exact ⟨t, o, rfl, h.1, h.2⟩

end BuildRs
